import Mathlib

/-!
Verification development for the 3D-Reconstruction batch-submission scripts
(`batch_registration.py` and `multi_registration.py`).  The two files contain
a byte-identical `BatchJob` class; it is embedded once below.  Python optional
string values are modelled as `Option String`, Python truthiness of such a
value as `truthy`, and Python's unbounded ints as `Int`.
-/

/-- Python optional string value: `none` models Python `None`. -/
abbrev PyStr := Option String

/-- Python truthiness of an optional string: `None` and `""` are falsy. -/
def truthy : PyStr → Bool
  | none => false
  | some s => !(s == "")

/-- Numeric indicator of truthiness, used to count non-empty attributes. -/
def tv (x : PyStr) : Nat := if truthy x then 1 else 0

/-- Extract the string from a `PyStr`; callers guard with `truthy` where the
Python code does, so the `none` branch is never reached under those guards. -/
def pyGet : PyStr → String
  | none => ""
  | some s => s

/-- The counter update shared by every optional-attribute setter of
`BatchJob` (`batch_registration.py` lines 121-128 and its eight clones):
`if not self.X and v: count += 1 elif v is None and self.X: count -= 1`. -/
def bump (cur v : PyStr) (c : Int) : Int :=
  if truthy cur = false ∧ truthy v = true then c + 1
  else if v = none ∧ truthy cur = true then c - 1
  else c

/-- State of a `BatchJob` object (`batch_registration.py` lines 85-265,
duplicated verbatim in `multi_registration.py` lines 111-291). -/
structure BatchJob where
  _name : PyStr
  _walltime : PyStr
  _nodes : PyStr
  _stderr_path : PyStr
  _stdout_path : PyStr
  _workdir : String
  _dependency_list : PyStr
  _mail_options : PyStr
  _mem : PyStr
  _vmem : PyStr
  attribute_count : Int
  job_script : String
  job_id : PyStr
deriving DecidableEq

/-- Setter for the `name` property. -/
def BatchJob.set_name (j : BatchJob) (v : PyStr) : BatchJob :=
  { j with attribute_count := bump j._name v j.attribute_count, _name := v }

/-- Setter for the `walltime` property. -/
def BatchJob.set_walltime (j : BatchJob) (v : PyStr) : BatchJob :=
  { j with attribute_count := bump j._walltime v j.attribute_count, _walltime := v }

/-- Setter for the `nodes` property. -/
def BatchJob.set_nodes (j : BatchJob) (v : PyStr) : BatchJob :=
  { j with attribute_count := bump j._nodes v j.attribute_count, _nodes := v }

/-- Setter for the `stderr_path` property. -/
def BatchJob.set_stderr_path (j : BatchJob) (v : PyStr) : BatchJob :=
  { j with attribute_count := bump j._stderr_path v j.attribute_count, _stderr_path := v }

/-- Setter for the `stdout_path` property. -/
def BatchJob.set_stdout_path (j : BatchJob) (v : PyStr) : BatchJob :=
  { j with attribute_count := bump j._stdout_path v j.attribute_count, _stdout_path := v }

/-- Setter for the `dependency_list` property. -/
def BatchJob.set_dependency_list (j : BatchJob) (v : PyStr) : BatchJob :=
  { j with attribute_count := bump j._dependency_list v j.attribute_count,
           _dependency_list := v }

/-- Setter for the `mail_options` property. -/
def BatchJob.set_mail_options (j : BatchJob) (v : PyStr) : BatchJob :=
  { j with attribute_count := bump j._mail_options v j.attribute_count, _mail_options := v }

/-- Setter for the `mem` property. -/
def BatchJob.set_mem (j : BatchJob) (v : PyStr) : BatchJob :=
  { j with attribute_count := bump j._mem v j.attribute_count, _mem := v }

/-- Setter for the `vmem` property. -/
def BatchJob.set_vmem (j : BatchJob) (v : PyStr) : BatchJob :=
  { j with attribute_count := bump j._vmem v j.attribute_count, _vmem := v }

/-- Setter for the `workdir` property: a falsy argument defaults to the
process's current working directory (`os.getcwd()`, passed in as `cwd`).
It does not touch `attribute_count`. -/
def BatchJob.set_workdir (j : BatchJob) (cwd : String) (v : PyStr) : BatchJob :=
  { j with _workdir := if truthy v then pyGet v else cwd }

/-- The `BatchJob.__init__` constructor: all private fields start at `None`,
`attribute_count` at 0, then each property setter is invoked in source order
(name, walltime, nodes, stdout, stderr, workdir, mail_options,
dependency_list, mem, vmem). -/
def BatchJob.init (cwd job_script : String)
    (name walltime nodes stderr stdout workdir mail_options dependency_list mem vmem : PyStr) :
    BatchJob :=
  let j : BatchJob :=
    { _name := none, _walltime := none, _nodes := none, _stderr_path := none,
      _stdout_path := none, _workdir := "", _dependency_list := none,
      _mail_options := none, _mem := none, _vmem := none,
      attribute_count := 0, job_script := job_script, job_id := none }
  let j := j.set_name name
  let j := j.set_walltime walltime
  let j := j.set_nodes nodes
  let j := j.set_stdout_path stdout
  let j := j.set_stderr_path stderr
  let j := j.set_workdir cwd workdir
  let j := j.set_mail_options mail_options
  let j := j.set_dependency_list dependency_list
  let j := j.set_mem mem
  let j := j.set_vmem vmem
  j

/-- The nine optional attributes that participate in `attribute_count`. -/
inductive Attr
  | name | walltime | nodes | stderr_path | stdout_path
  | dependency_list | mail_options | mem | vmem
deriving DecidableEq

/-- Dispatch a property-setter call by attribute. -/
def setAttr (j : BatchJob) (a : Attr) (v : PyStr) : BatchJob :=
  match a with
  | .name => j.set_name v
  | .walltime => j.set_walltime v
  | .nodes => j.set_nodes v
  | .stderr_path => j.set_stderr_path v
  | .stdout_path => j.set_stdout_path v
  | .dependency_list => j.set_dependency_list v
  | .mail_options => j.set_mail_options v
  | .mem => j.set_mem v
  | .vmem => j.set_vmem v

/-- Read the private field behind an optional attribute. -/
def getAttr (j : BatchJob) (a : Attr) : PyStr :=
  match a with
  | .name => j._name
  | .walltime => j._walltime
  | .nodes => j._nodes
  | .stderr_path => j._stderr_path
  | .stdout_path => j._stdout_path
  | .dependency_list => j._dependency_list
  | .mail_options => j._mail_options
  | .mem => j._mem
  | .vmem => j._vmem

/-- Number of optional attributes currently holding a non-empty (truthy)
value; this is the quantity `attribute_count` is meant to track. -/
def nonEmptyCount (j : BatchJob) : Nat :=
  tv j._name + tv j._walltime + tv j._nodes + tv j._stderr_path + tv j._stdout_path +
    tv j._dependency_list + tv j._mail_options + tv j._mem + tv j._vmem

/-- Apply a sequence of setter calls to a descriptor. -/
def applyOps (j : BatchJob) (ops : List (Attr × PyStr)) : BatchJob :=
  ops.foldl (fun acc p => setAttr acc p.1 p.2) j

/-- A value that is either a clear (`None`) or genuinely non-empty; the
callers in both scripts only ever pass such values. -/
abbrev safeVal (v : PyStr) : Prop := v = none ∨ truthy v = true

@[simp] lemma truthy_none : truthy none = false := rfl

@[simp] lemma truthy_some (s : String) : truthy (some s) = !(s == "") := rfl

lemma truthy_ne_none {v : PyStr} (h : truthy v = true) : v ≠ none := by
  cases v with
  | none => simp at h
  | some s => simp

lemma setAttr_count (j : BatchJob) (a : Attr) (v : PyStr) :
    (setAttr j a v).attribute_count = bump (getAttr j a) v j.attribute_count := by
  cases a <;> rfl

lemma setAttr_nonEmpty (j : BatchJob) (a : Attr) (v : PyStr) :
    (nonEmptyCount (setAttr j a v) : Int)
      = (nonEmptyCount j : Int) - tv (getAttr j a) + tv v := by
  cases a <;>
    simp only [setAttr, getAttr, nonEmptyCount, BatchJob.set_name, BatchJob.set_walltime,
      BatchJob.set_nodes, BatchJob.set_stderr_path, BatchJob.set_stdout_path,
      BatchJob.set_dependency_list, BatchJob.set_mail_options, BatchJob.set_mem,
      BatchJob.set_vmem] <;>
    push_cast <;> ring

lemma bump_eq_of_safe (cur v : PyStr) (c : Int) (h : safeVal v) :
    bump cur v c = c - tv cur + tv v := by
  rcases h with h | h
  · subst h
    cases hc : truthy cur <;> simp [bump, tv, hc]
  · have hne : v ≠ none := truthy_ne_none h
    cases hc : truthy cur <;> simp [bump, tv, hc, h, hne]

lemma bump_ge (cur v : PyStr) (c : Int) : c - (tv cur : Int) + tv v ≤ bump cur v c := by
  cases hv : truthy v with
  | true =>
    have hne : v ≠ none := truthy_ne_none hv
    cases hc : truthy cur <;> simp [bump, tv, hv, hc, hne]
  | false =>
    cases hc : truthy cur <;> simp [bump, tv, hv, hc] <;> split_ifs <;> omega

lemma invEq_setAttr {j : BatchJob} (a : Attr) {v : PyStr}
    (hj : j.attribute_count = (nonEmptyCount j : Int)) (hv : safeVal v) :
    (setAttr j a v).attribute_count = (nonEmptyCount (setAttr j a v) : Int) := by
  rw [setAttr_count, setAttr_nonEmpty, bump_eq_of_safe _ _ _ hv, hj]

lemma invGe_setAttr {j : BatchJob} (a : Attr) (v : PyStr)
    (hj : (nonEmptyCount j : Int) ≤ j.attribute_count) :
    (nonEmptyCount (setAttr j a v) : Int) ≤ (setAttr j a v).attribute_count := by
  rw [setAttr_count, setAttr_nonEmpty]
  calc (nonEmptyCount j : Int) - tv (getAttr j a) + tv v
      ≤ j.attribute_count - tv (getAttr j a) + tv v := by omega
    _ ≤ bump (getAttr j a) v j.attribute_count := bump_ge _ _ _

lemma set_workdir_count (j : BatchJob) (cwd : String) (v : PyStr) :
    (j.set_workdir cwd v).attribute_count = j.attribute_count := rfl

lemma set_workdir_nonEmpty (j : BatchJob) (cwd : String) (v : PyStr) :
    nonEmptyCount (j.set_workdir cwd v) = nonEmptyCount j := rfl

/-- Descriptor states reachable by `__init__` followed by any sequence of
property-setter calls. -/
inductive Reachable : BatchJob → Prop
  | construct (cwd job_script : String)
      (name walltime nodes stderr stdout workdir mail_options dependency_list mem vmem : PyStr) :
      Reachable (BatchJob.init cwd job_script name walltime nodes stderr stdout workdir
        mail_options dependency_list mem vmem)
  | set (j : BatchJob) (a : Attr) (v : PyStr) : Reachable j → Reachable (setAttr j a v)
  | setWd (j : BatchJob) (cwd : String) (v : PyStr) : Reachable j →
      Reachable (j.set_workdir cwd v)

lemma invEq_applyOps (ops : List (Attr × PyStr)) {j : BatchJob}
    (hj : j.attribute_count = (nonEmptyCount j : Int))
    (hops : ∀ p ∈ ops, safeVal p.2) :
    (applyOps j ops).attribute_count = (nonEmptyCount (applyOps j ops) : Int) := by
  induction ops generalizing j with
  | nil => exact hj
  | cons p rest ih =>
    have h1 : safeVal p.2 := hops p (List.mem_cons_self _ _)
    have h2 : ∀ q ∈ rest, safeVal q.2 := fun q hq => hops q (List.mem_cons_of_mem _ hq)
    exact ih (invEq_setAttr p.1 hj h1) h2

lemma invGe_applyOps (ops : List (Attr × PyStr)) {j : BatchJob}
    (hj : (nonEmptyCount j : Int) ≤ j.attribute_count) :
    (nonEmptyCount (applyOps j ops) : Int) ≤ (applyOps j ops).attribute_count := by
  induction ops generalizing j with
  | nil => exact hj
  | cons p rest ih => exact ih (invGe_setAttr p.1 p.2 hj)

/-- The constructor is the base record followed by the setter calls it makes,
in source order. -/
lemma init_decomp (cwd job_script : String)
    (name walltime nodes stderr stdout workdir mail_options dependency_list mem vmem : PyStr) :
    BatchJob.init cwd job_script name walltime nodes stderr stdout workdir mail_options
        dependency_list mem vmem
      = applyOps
          ((applyOps
            { _name := none, _walltime := none, _nodes := none, _stderr_path := none,
              _stdout_path := none, _workdir := "", _dependency_list := none,
              _mail_options := none, _mem := none, _vmem := none,
              attribute_count := 0, job_script := job_script, job_id := none }
            [(.name, name), (.walltime, walltime), (.nodes, nodes),
             (.stdout_path, stdout), (.stderr_path, stderr)]).set_workdir cwd workdir)
          [(.mail_options, mail_options), (.dependency_list, dependency_list),
           (.mem, mem), (.vmem, vmem)] := rfl

lemma invEq_init (cwd job_script : String)
    (name walltime nodes stderr stdout workdir mail_options dependency_list mem vmem : PyStr)
    (h1 : safeVal name) (h2 : safeVal walltime) (h3 : safeVal nodes) (h4 : safeVal stderr)
    (h5 : safeVal stdout) (h6 : safeVal mail_options) (h7 : safeVal dependency_list)
    (h8 : safeVal mem) (h9 : safeVal vmem) :
    (BatchJob.init cwd job_script name walltime nodes stderr stdout workdir mail_options
        dependency_list mem vmem).attribute_count
      = (nonEmptyCount (BatchJob.init cwd job_script name walltime nodes stderr stdout
          workdir mail_options dependency_list mem vmem) : Int) := by
  rw [init_decomp]
  apply invEq_applyOps
  · rw [set_workdir_count, set_workdir_nonEmpty]
    apply invEq_applyOps
    · simp [nonEmptyCount, tv]
    · intro p hp
      simp only [List.mem_cons, List.not_mem_nil, or_false] at hp
      rcases hp with rfl | rfl | rfl | rfl | rfl <;> assumption
  · intro p hp
    simp only [List.mem_cons, List.not_mem_nil, or_false] at hp
    rcases hp with rfl | rfl | rfl | rfl <;> assumption

lemma invGe_init (cwd job_script : String)
    (name walltime nodes stderr stdout workdir mail_options dependency_list mem vmem : PyStr) :
    (nonEmptyCount (BatchJob.init cwd job_script name walltime nodes stderr stdout workdir
        mail_options dependency_list mem vmem) : Int)
      ≤ (BatchJob.init cwd job_script name walltime nodes stderr stdout workdir mail_options
          dependency_list mem vmem).attribute_count := by
  rw [init_decomp]
  apply invGe_applyOps
  rw [set_workdir_count, set_workdir_nonEmpty]
  apply invGe_applyOps
  simp [nonEmptyCount, tv]

/-- Along every reachable descriptor state, the manual counter is an upper
bound on the number of non-empty optional attributes (it can drift high when
an attribute is overwritten with the empty string, but never low). -/
lemma reachable_count_ge {j : BatchJob} (h : Reachable j) :
    (nonEmptyCount j : Int) ≤ j.attribute_count := by
  induction h with
  | construct cwd job_script name walltime nodes stderr stdout workdir mo dl mem vmem =>
    exact invGe_init cwd job_script name walltime nodes stderr stdout workdir mo dl mem vmem
  | set j a v hj ih => exact invGe_setAttr a v ih
  | setWd j cwd v hj ih =>
    rw [set_workdir_count, set_workdir_nonEmpty]
    exact ih

/-- Attribute-name constants of the `pbs` module referenced by the scripts.
`ATTR_e` (the distinct error-path attribute the library also defines) is
included to state that `submit` never uses it. -/
inductive AttrName
  | ATTR_v | ATTR_N | ATTR_l | ATTR_o | ATTR_e | ATTR_depend | ATTR_m
deriving DecidableEq

/-- One entry of the `attropl` array passed to `pbs_submit`. -/
structure Attropl where
  name : AttrName
  resource : Option String
  value : String
deriving DecidableEq

/-- One conditional append of `submit`: the entry is written only when the
guarding attribute is truthy. -/
def optAttr (b : Bool) (a : Attropl) : List Attropl := if b then [a] else []

/-- The sequence of entries `submit` writes into the `attropl` array
(`batch_registration.py` lines 274-328, identical in `multi_registration.py`
lines 300-354): the environment block first, then one entry per truthy
optional attribute, in source order.  Note the stderr entry reuses
`pbs.ATTR_o` (line 304). -/
def buildAttropl (envStr : String) (j : BatchJob) : List Attropl :=
  [⟨.ATTR_v, none, envStr⟩]
    ++ optAttr (truthy j._name) ⟨.ATTR_N, none, pyGet j._name⟩
    ++ optAttr (truthy j._walltime) ⟨.ATTR_l, some "walltime", pyGet j._walltime⟩
    ++ optAttr (truthy j._nodes) ⟨.ATTR_l, some "nodes", pyGet j._nodes⟩
    ++ optAttr (truthy j._stdout_path) ⟨.ATTR_o, none, pyGet j._stdout_path⟩
    ++ optAttr (truthy j._stderr_path) ⟨.ATTR_o, none, pyGet j._stderr_path⟩
    ++ optAttr (truthy j._dependency_list) ⟨.ATTR_depend, none, pyGet j._dependency_list⟩
    ++ optAttr (truthy j._mail_options) ⟨.ATTR_m, none, pyGet j._mail_options⟩
    ++ optAttr (truthy j._mem) ⟨.ATTR_l, some "mem", pyGet j._mem⟩
    ++ optAttr (truthy j._vmem) ⟨.ATTR_l, some "vmem", pyGet j._vmem⟩

/-- The capacity `submit` allocates: `pbs.new_attropl(self.attribute_count + 1)`. -/
def attroplCapacity (j : BatchJob) : Int := j.attribute_count + 1

lemma length_optAttr (b : Bool) (a : Attropl) :
    (optAttr b a).length = if b then 1 else 0 := by
  cases b <;> rfl

lemma buildAttropl_length (envStr : String) (j : BatchJob) :
    (buildAttropl envStr j).length = 1 + nonEmptyCount j := by
  simp only [buildAttropl, List.length_append, List.length_singleton, length_optAttr,
    nonEmptyCount, tv]
  ring

lemma filter_optAttr_false (p : Attropl → Bool) (b : Bool) (a : Attropl) (h : p a = false) :
    (optAttr b a).filter p = [] := by
  cases b <;> simp [optAttr, h]

lemma filter_optAttr_true (p : Attropl → Bool) (b : Bool) (a : Attropl) (h : p a = true) :
    (optAttr b a).filter p = optAttr b a := by
  cases b <;> simp [optAttr, h]

lemma mem_optAttr {a x : Attropl} {b : Bool} (h : a ∈ optAttr b x) : a = x := by
  cases b <;> simp_all [optAttr]

/-- A fresh descriptor as built by the orchestrators (no optional attribute
set), used to exhibit the empty-string counting defect. -/
def c1Fresh : BatchJob :=
  BatchJob.init "/work" "job.sh" none none none none none none none none none none

/-- The fresh descriptor after `name` is set to a non-empty string. -/
def c1SetName : BatchJob := setAttr c1Fresh Attr.name (some "align_K1")

/-- The same descriptor after `name` is then overwritten with `""`. -/
def c1SetEmpty : BatchJob := setAttr c1SetName Attr.name (some "")

/-- C1 counterexample: after setting `name` to a non-empty string and then to
`""`, `attribute_count` is still 1 while no optional attribute holds a
non-empty value, so the count does not equal the number of non-empty
attributes and setting a set attribute to the empty string did not decrement
the count — the claim as stated is false on this sequence. -/
theorem attribute_count_empty_string_cex :
    c1SetName.attribute_count = 1 ∧ c1SetEmpty.attribute_count = 1 ∧
      nonEmptyCount c1SetEmpty = 0 ∧
      ¬ (c1SetEmpty.attribute_count = (nonEmptyCount c1SetEmpty : Int)) := by
  decide

/-- C1 (amended): for every sequence of set/clear operations whose values are
each either `None` or non-empty, starting from a freshly constructed
descriptor whose initial optional values are also `None` or non-empty,
`attribute_count` equals the number of non-empty optional attributes; and
setting an already-set attribute to `None` decrements the count by exactly 1
(setting it to the empty string leaves the count unchanged, per the
counterexample). -/
theorem attribute_count_invariant (cwd job_script : String)
    (name walltime nodes stderr stdout workdir mail_options dependency_list mem vmem : PyStr)
    (h1 : safeVal name) (h2 : safeVal walltime) (h3 : safeVal nodes) (h4 : safeVal stderr)
    (h5 : safeVal stdout) (h6 : safeVal mail_options) (h7 : safeVal dependency_list)
    (h8 : safeVal mem) (h9 : safeVal vmem)
    (ops : List (Attr × PyStr)) (hops : ∀ p ∈ ops, safeVal p.2) :
    (applyOps (BatchJob.init cwd job_script name walltime nodes stderr stdout workdir
        mail_options dependency_list mem vmem) ops).attribute_count
      = (nonEmptyCount (applyOps (BatchJob.init cwd job_script name walltime nodes stderr
          stdout workdir mail_options dependency_list mem vmem) ops) : Int)
    ∧ ∀ (j : BatchJob) (a : Attr), truthy (getAttr j a) = true →
        (setAttr j a none).attribute_count = j.attribute_count - 1 := by
  constructor
  · exact invEq_applyOps ops
      (invEq_init cwd job_script name walltime nodes stderr stdout workdir mail_options
        dependency_list mem vmem h1 h2 h3 h4 h5 h6 h7 h8 h9) hops
  · intro j a h
    rw [setAttr_count]
    simp [bump, h]

/-- Witness for the amended C1 theorem at a concrete operation sequence. -/
theorem attribute_count_invariant_witness :
    (applyOps (BatchJob.init "/w" "s.sh" none none none none none none none none none none)
        [(Attr.name, some "a"), (Attr.mem, some "14gb"), (Attr.name, none)]).attribute_count
      = (nonEmptyCount (applyOps (BatchJob.init "/w" "s.sh" none none none none none none
          none none none none)
          [(Attr.name, some "a"), (Attr.mem, some "14gb"), (Attr.name, none)]) : Int) :=
  (attribute_count_invariant "/w" "s.sh" none none none none none none none none none none
    (Or.inl rfl) (Or.inl rfl) (Or.inl rfl) (Or.inl rfl) (Or.inl rfl) (Or.inl rfl)
    (Or.inl rfl) (Or.inl rfl) (Or.inl rfl) _ (by decide)).1

/-- C2: on every reachable descriptor, `submit` writes exactly one
environment entry plus one entry per non-empty optional attribute, and this
never exceeds the allocated capacity `attribute_count + 1`. -/
theorem submit_capacity_safe (envStr : String) (j : BatchJob) (hj : Reachable j) :
    (buildAttropl envStr j).length = 1 + nonEmptyCount j
    ∧ ((buildAttropl envStr j).length : Int) ≤ attroplCapacity j := by
  refine ⟨buildAttropl_length envStr j, ?_⟩
  rw [buildAttropl_length]
  have h := reachable_count_ge hj
  unfold attroplCapacity
  push_cast
  omega

/-- The descriptor the single-stack orchestrator builds, followed by one
further setter call, used as a concrete reachable state. -/
def c2Job : BatchJob :=
  setAttr (BatchJob.init "/w" "tmp.sh" (some "align_a.tif") (some "4:00:00") (some "1:ppn=8")
    none none none (some "ae") none (some "14gb") (some "25gb")) Attr.name (some "align2")

/-- Witness for the C2 theorem at a concrete reachable descriptor. -/
theorem submit_capacity_safe_witness :
    ((buildAttropl "PBS_O_WORKDIR=/w" c2Job).length : Int) ≤ attroplCapacity c2Job :=
  (submit_capacity_safe "PBS_O_WORKDIR=/w" c2Job
    (Reachable.set _ Attr.name (some "align2")
      (Reachable.construct "/w" "tmp.sh" (some "align_a.tif") (some "4:00:00")
        (some "1:ppn=8") none none none (some "ae") none (some "14gb") (some "25gb")))).2

/-- C8: when both the stdout path and the stderr path are set, the attribute
entries `submit` writes for them both carry `pbs.ATTR_o` — the stderr entry
is appended right after the stdout one under the same attribute name, and no
entry anywhere in the list uses the distinct `pbs.ATTR_e` identifier. -/
theorem stderr_reuses_stdout_attr (envStr : String) (j : BatchJob)
    (ho : truthy j._stdout_path = true) (he : truthy j._stderr_path = true) :
    (buildAttropl envStr j).filter (fun a => decide (a.name = AttrName.ATTR_o))
      = [⟨AttrName.ATTR_o, none, pyGet j._stdout_path⟩,
         ⟨AttrName.ATTR_o, none, pyGet j._stderr_path⟩]
    ∧ ∀ a ∈ buildAttropl envStr j, a.name ≠ AttrName.ATTR_e := by
  constructor
  · simp only [buildAttropl, optAttr, ho, he, List.filter_append]
    split_ifs <;> simp_all
  · intro a ha
    simp only [buildAttropl, List.append_assoc, List.mem_append, List.mem_singleton] at ha
    rcases ha with rfl | h | h | h | h | h | h | h | h | h
    · simp
    all_goals obtain rfl := mem_optAttr h
    all_goals simp

/-- A descriptor with both stdout and stderr paths set. -/
def c8Job : BatchJob :=
  BatchJob.init "/w" "s.sh" none none none (some "err.txt") (some "out.txt") none none none
    none none

/-- Witness for the C8 theorem at a concrete descriptor. -/
theorem stderr_reuses_stdout_attr_witness :
    (buildAttropl "E" c8Job).filter (fun a => decide (a.name = AttrName.ATTR_o))
      = [⟨AttrName.ATTR_o, none, pyGet c8Job._stdout_path⟩,
         ⟨AttrName.ATTR_o, none, pyGet c8Job._stderr_path⟩]
    ∧ ∀ a ∈ buildAttropl "E" c8Job, a.name ≠ AttrName.ATTR_e :=
  stderr_reuses_stdout_attr "E" c8Job (by decide) (by decide)

/-- One segment of a script template: literal text or a `$NAME` placeholder.
The `$$` escapes of the Python templates are folded into the literals as a
single `$`, exactly as `string.Template` renders them. -/
inductive Tok
  | lit (s : String)
  | var (s : String)
deriving DecidableEq

/-- A parsed script template. -/
abbrev Template := List Tok

/-- A `_tokens` dict: placeholder name to optional value, in the order the
constructor assigns the keys. -/
abbrev TokenMap := List (String × PyStr)

/-- Dict lookup by key. -/
def lookupTok (m : TokenMap) (k : String) : Option PyStr :=
  (m.find? (fun p => p.1 == k)).map (fun p => p.2)

/-- Rendering failures: `missingToken` models the explicit
`uninitialized token` Exception raised by `generate_script`;
`unboundPlaceholder` models the `KeyError` that
`string.Template.substitute` raises for a placeholder absent from the map. -/
inductive RenderError
  | missingToken (key : String)
  | unboundPlaceholder (key : String)
deriving DecidableEq

/-- String conversion a bound value undergoes during substitution
(`'%s' % value`); the `None` branch is unreachable after the `None` check. -/
def pyRender : PyStr → String
  | none => "None"
  | some s => s

/-- Substitute one template segment. -/
def renderTok (m : TokenMap) : Tok → Except RenderError String
  | .lit s => .ok s
  | .var n =>
    match lookupTok m n with
    | none => .error (.unboundPlaceholder n)
    | some v => .ok (pyRender v)

/-- Left-to-right substitution performed by
`string.Template(self.script_template).substitute(self._tokens)`. -/
def substituteTmpl (m : TokenMap) : Template → Except RenderError String
  | [] => .ok ""
  | t :: rest => do
    let s ← renderTok m t
    let r ← substituteTmpl m rest
    pure (s ++ r)

/-- Total substitution: every placeholder replaced by its bound value. -/
def renderAll (m : TokenMap) : Template → String
  | [] => ""
  | .lit s :: rest => s ++ renderAll m rest
  | .var n :: rest =>
    (match lookupTok m n with
     | some v => pyRender v
     | none => "") ++ renderAll m rest

/-- Does the map bind every placeholder of the template? -/
def covers (m : TokenMap) (tmpl : Template) : Bool :=
  tmpl.all (fun t =>
    match t with
    | .lit _ => true
    | .var n => (lookupTok m n).isSome)

/-- The `generate_script` method shared by `SubmitScript`
(`batch_registration.py` lines 72-76) and `BatchScript`
(`multi_registration.py` lines 98-102): raise `uninitialized token` for a
token whose value is `None` before substituting, otherwise substitute.
CPython 2 iterates the dict in hash order; the model checks in assignment
order, which only affects which key is reported when several are `None`. -/
def generate_script (tmpl : Template) (m : TokenMap) : Except RenderError String :=
  match m.find? (fun p => p.2.isNone) with
  | some p => .error (.missingToken p.1)
  | none => substituteTmpl m tmpl

/-- Did a Python call return normally (no exception)? -/
def exceptOk {e a : Type} : Except e a → Bool
  | .ok _ => true
  | .error _ => false

/-- Constant `FIJI_HOME` shared by both scripts. -/
def FIJI_HOME : String := "/opt/compsci/Fiji/Fiji.app"

/-- Constant `MACRO` of `batch_registration.py`. -/
def MACRO : String := "/opt/compsci/Fiji/macros/kidneyalign.ijm"

/-- Constant `MACRO` of `multi_registration.py`. -/
def MULTI_MACRO : String := "/opt/compsci/Fiji/macros/multi_channel.ijm"

/-- Model of `os.path.splitext` for ordinary filenames: split at the last
dot (the leading-dot special case never arises for the scripts' inputs).
Implemented by structural recursion over the character list so that it
evaluates inside the kernel. -/
def splitext (p : String) : String × String :=
  let rev := p.data.reverse
  let pre := rev.takeWhile (fun c => c ≠ '.')
  if pre.length = rev.length then (p, "")
  else (String.mk ((rev.drop (pre.length + 1)).reverse), String.mk ('.' :: pre.reverse))

/-- Model of `os.path.basename`: the part after the last slash. -/
def basename (p : String) : String :=
  String.mk ((p.data.reverse.takeWhile (fun c => c ≠ '/')).reverse)

/-- Model of Python `str.split` with a one-character separator, which is
how the pairing loop uses it (`filename.split("_")`). -/
def splitCharAux (sep : Char) : List Char → List Char → List String
  | [], acc => [String.mk acc.reverse]
  | c :: rest, acc =>
    if c = sep then String.mk acc.reverse :: splitCharAux sep rest []
    else splitCharAux sep rest (c :: acc)

/-- Python `s.split(sep)` for a one-character separator. -/
def pySplit (s : String) (sep : Char) : List String := splitCharAux sep s.data []

/-- Model of Python `str.upper` for ASCII strings (the extensions compared
are ASCII). -/
def pyUpper (s : String) : String :=
  String.mk (s.data.map (fun c => if 'a' ≤ c ∧ c ≤ 'z' then Char.ofNat (c.toNat - 32) else c))

/-- The dedented `SubmitScript.script_template` of `batch_registration.py`
(lines 33-43), parsed into literals and placeholders. -/
def batchTemplate : Template :=
  [.lit "#!/bin/bash\n\nmodule load Python\nmodule load java\n\ncd $PBS_O_WORKDIR\n\n",
   .var "FIJI_HOME_DIR", .lit "/ImageJ-linux64  ", .var "HEAP", .lit " -batch ",
   .var "ALIGN_MACRO", .lit " \"", .var "STACK_IN", .lit ":", .var "STACK_OUT",
   .lit "\"\n\n"]

/-- The token dict built by `SubmitScript.__init__` (`batch_registration.py`
lines 45-66): input, derived-or-explicit output, constants, optional heap
flag. -/
def SubmitScript.tokens (input : String) (output heap : PyStr) : TokenMap :=
  [("STACK_IN", some input),
   ("STACK_OUT",
     if truthy output then output
     else some (basename (splitext input).1 ++ "-aligned" ++ (splitext input).2)),
   ("FIJI_HOME_DIR", some FIJI_HOME),
   ("ALIGN_MACRO", some MACRO),
   ("HEAP", some (if truthy heap then "--heap " ++ pyGet heap else ""))]

/-- The dedented `BatchScript.script_template` of `multi_registration.py`
(lines 36-52), parsed into literals and placeholders. -/
def multiTemplate : Template :=
  [.lit "#!/bin/bash\n\nmodule load java\n\ncd $PBS_O_WORKDIR\n\n#start Xvfb so that our transformation file gets saved correctly\n#there seems to be a bug in the MultiStackReg plugin that prevents \n#it from saving the transformation file unless an X server is running\n\nexport DISPLAY=:",
   .var "DNUM",
   .lit " \nXvfb $DISPLAY -auth /dev/null > /dev/null 2>&1 &\n\n",
   .var "FIJI_HOME_DIR", .lit "/ImageJ-linux64  ", .var "HEAP", .lit " -batch ",
   .var "ALIGN_MACRO", .lit " \"", .var "BACKGROUND_IN", .lit ":", .var "BACKGROUND_OUT",
   .lit ":", .var "GLOMERULI_IN", .lit ":", .var "GLOMERULI_OUT", .lit ":",
   .var "TRANS_OUT", .lit ":", .var "TRANS_TYPE", .lit "\"\n\n"]

/-- The token dict built by `BatchScript.__init__` (`multi_registration.py`
lines 54-92).  Note line 73: the guard for `GLOMERULI_OUT` tests
`background_out`, not `glomeruli_out`, exactly as in the source. -/
def BatchScript.tokens (background_in glomeruli_in : String)
    (background_out glomeruli_out transformations_out : PyStr)
    (transformation_type : String) (heap : PyStr) (display : Nat) : TokenMap :=
  [("BACKGROUND_IN", some background_in),
   ("GLOMERULI_IN", some glomeruli_in),
   ("DNUM", some (toString display)),
   ("BACKGROUND_OUT",
     if truthy background_out then background_out
     else some (basename (splitext background_in).1 ++ "_aligned"
       ++ (splitext background_in).2)),
   ("GLOMERULI_OUT",
     if truthy background_out then glomeruli_out
     else some (basename (splitext glomeruli_in).1 ++ "_aligned"
       ++ (splitext glomeruli_in).2)),
   ("TRANS_OUT",
     if truthy transformations_out then transformations_out
     else some "transformations.txt"),
   ("TRANS_TYPE", some transformation_type),
   ("FIJI_HOME_DIR", some FIJI_HOME),
   ("ALIGN_MACRO", some MULTI_MACRO),
   ("HEAP", some (if truthy heap then "--heap " ++ pyGet heap else ""))]

lemma substituteTmpl_ok (m : TokenMap) (tmpl : Template) (hcov : covers m tmpl = true) :
    substituteTmpl m tmpl = .ok (renderAll m tmpl) := by
  induction tmpl with
  | nil => rfl
  | cons t rest ih =>
    simp only [covers, List.all_cons, Bool.and_eq_true] at hcov
    obtain ⟨h1, h2⟩ := hcov
    have ihr : substituteTmpl m rest = .ok (renderAll m rest) := ih h2
    cases t with
    | lit s =>
      simp [substituteTmpl, renderTok, renderAll, ihr, bind, Except.bind, pure, Except.pure]
    | var n =>
      obtain ⟨v, hv⟩ := Option.isSome_iff_exists.mp h1
      simp [substituteTmpl, renderTok, renderAll, hv, ihr, bind, Except.bind, pure,
        Except.pure]

/-- C3 counterexample: the token map built by `SubmitScript("a.tif")` with no
heap holds the empty-string value for `HEAP`, yet `generate_script` succeeds
— an empty (as opposed to unset/None) value does not make rendering fail, so
the claim that any empty value fails is false on this input. -/
theorem generate_script_empty_value_cex :
    ("HEAP", some "") ∈ SubmitScript.tokens "a.tif" none none
    ∧ exceptOk (generate_script batchTemplate (SubmitScript.tokens "a.tif" none none))
        = true := by
  decide

/-- C3 (amended): rendering fails with the uninitialized-token error exactly
for a token whose value is unset (`None`), before any substitution; if every
token value is set (empty strings included) and the map binds every
placeholder of the template, rendering succeeds and the output is the total
substitution, in which every placeholder has been replaced. -/
theorem generate_script_none_validation (tmpl : Template) (m : TokenMap) :
    (∀ k v, m.find? (fun p => p.2.isNone) = some (k, v) →
       generate_script tmpl m = .error (.missingToken k))
    ∧ ((∀ p ∈ m, p.2 ≠ none) → covers m tmpl = true →
       generate_script tmpl m = .ok (renderAll m tmpl)) := by
  constructor
  · intro k v hfind
    simp [generate_script, hfind]
  · intro hall hcov
    have hnone : m.find? (fun p => p.2.isNone) = none := by
      rw [List.find?_eq_none]
      intro p hp
      simpa [Option.isNone_iff_eq_none] using hall p hp
    simp [generate_script, hnone, substituteTmpl_ok m tmpl hcov]

/-- A fully-set token map as the single-stack orchestrator builds it. -/
def c3FullMap : TokenMap := SubmitScript.tokens "stack.tif" none (some "13332")

/-- Witness for the C3 theorem: a map with a `None` value fails with that
key, and the orchestrator's fully-set map renders to the total
substitution. -/
theorem generate_script_none_validation_witness :
    generate_script batchTemplate [("A", (none : Option String))]
        = .error (.missingToken "A")
    ∧ generate_script batchTemplate c3FullMap = .ok (renderAll c3FullMap batchTemplate) :=
  ⟨(generate_script_none_validation batchTemplate [("A", none)]).1 "A" none rfl,
   (generate_script_none_validation batchTemplate c3FullMap).2 (by decide) (by decide)⟩

/-- C10: in the paired-mode script builder, the `GLOMERULI_OUT` default is
gated on `background_out` (line 73 of `multi_registration.py`), so with an
explicit background output and no explicit glomeruli output the token stays
`None` and rendering fails with the uninitialized-token error for
`GLOMERULI_OUT`; the glomeruli default name is applied exactly when the
background output is absent. -/
theorem glomeruli_out_gated_on_background (background_in glomeruli_in : String)
    (background_out glomeruli_out transformations_out : PyStr)
    (transformation_type : String) (heap : PyStr) (display : Nat) :
    (truthy background_out = true →
       lookupTok (BatchScript.tokens background_in glomeruli_in background_out glomeruli_out
           transformations_out transformation_type heap display) "GLOMERULI_OUT"
         = some glomeruli_out)
    ∧ (truthy background_out = false →
       lookupTok (BatchScript.tokens background_in glomeruli_in background_out glomeruli_out
           transformations_out transformation_type heap display) "GLOMERULI_OUT"
         = some (some (basename (splitext glomeruli_in).1 ++ "_aligned"
             ++ (splitext glomeruli_in).2)))
    ∧ (truthy background_out = true → glomeruli_out = none →
       generate_script multiTemplate (BatchScript.tokens background_in glomeruli_in
           background_out glomeruli_out transformations_out transformation_type heap display)
         = .error (.missingToken "GLOMERULI_OUT")) := by
  have hl : lookupTok (BatchScript.tokens background_in glomeruli_in background_out
      glomeruli_out transformations_out transformation_type heap display) "GLOMERULI_OUT"
      = some (if truthy background_out then glomeruli_out
          else some (basename (splitext glomeruli_in).1 ++ "_aligned"
            ++ (splitext glomeruli_in).2)) := rfl
  refine ⟨fun hb => ?_, fun hb => ?_, fun hb hg => ?_⟩
  · rw [hl, hb]
    simp
  · rw [hl, hb]
    simp
  · subst hg
    cases background_out with
    | none => simp at hb
    | some s =>
      simp only [truthy_some, Bool.not_eq_true', beq_eq_false_iff_ne, ne_eq] at hb
      simp [generate_script, BatchScript.tokens, List.find?, hb]

/-- Witness for the C10 theorem on the concrete constructor call with an
explicit background output and an omitted glomeruli output. -/
theorem glomeruli_out_gated_on_background_witness :
    lookupTok (BatchScript.tokens "K1_B.tif" "K1_G.tif" (some "bg_out.tif") none none
        "Rigid Body" none 1000) "GLOMERULI_OUT" = some none
    ∧ generate_script multiTemplate (BatchScript.tokens "K1_B.tif" "K1_G.tif"
        (some "bg_out.tif") none none "Rigid Body" none 1000)
      = .error (.missingToken "GLOMERULI_OUT") :=
  ⟨(glomeruli_out_gated_on_background "K1_B.tif" "K1_G.tif" (some "bg_out.tif") none none
      "Rigid Body" none 1000).1 (by decide),
   (glomeruli_out_gated_on_background "K1_B.tif" "K1_G.tif" (some "bg_out.tif") none none
      "Rigid Body" none 1000).2.2 (by decide) rfl⟩

/-- A snapshot of `os.environ`: the keys present in the ambient environment
with their values. -/
abbrev EnvMap := List (String × String)

/-- `os.environ` lookup; `none` means the key is absent. -/
def envLookup (environ : EnvMap) (k : String) : Option String :=
  (environ.find? (fun p => p.1 == k)).map (fun p => p.2)

/-- Python-level failures arising in `generate_env` and `submit`: the
`KeyError` that `os.environ['X']` raises for an absent key, and the
Exception raised for a non-zero batch-system error, whose message
`"%d: %s" % (e, e_msg)` carries the code and the message. -/
inductive PyError
  | keyError (key : String)
  | submissionError (code : Int) (message : String)
deriving DecidableEq

/-- `BatchJob.generate_env` (`batch_registration.py` lines 351-368,
identical in `multi_registration.py` lines 377-394): the comma-joined
environment block.  Each `if os.environ['X']:` first performs the indexed
lookup — raising `KeyError` when `X` is absent — and then skips the
`KEY=VALUE` pair when the value is the empty string. -/
def BatchJob.generate_env (j : BatchJob) (environ : EnvMap) (fqdn : String) :
    Except PyError String :=
  let env := "PBS_O_WORKDIR=" ++ j._workdir
  let env := env ++ ",PBS_O_HOST=" ++ fqdn
  match envLookup environ "PATH" with
  | none => .error (.keyError "PATH")
  | some path =>
    let env := if path ≠ "" then env ++ ",PBS_O_PATH=" ++ path else env
    match envLookup environ "HOME" with
    | none => .error (.keyError "HOME")
    | some home =>
      let env := if home ≠ "" then env ++ ",PBS_O_HOME=" ++ home else env
      match envLookup environ "LOGNAME" with
      | none => .error (.keyError "LOGNAME")
      | some logname =>
        let env := if logname ≠ "" then env ++ ",PBS_O_LOGNAME=" ++ logname else env
        .ok env

/-- What the resource manager returns for one submit call: the id from
`pbs_submit` and the `(code, message)` pair that `pbs.error()` reports
afterwards. -/
structure PbsManager where
  job_id : String
  err_code : Int
  err_msg : String
deriving DecidableEq

/-- The pbs library calls `submit` performs, in order. -/
inductive PbsEvent
  | connect
  | submitCall
  | disconnect
deriving DecidableEq, BEq

/-- `BatchJob.submit` (`batch_registration.py` lines 271-343, identical in
`multi_registration.py` lines 297-369): allocate and fill the attribute
list (the first entry's value comes from `generate_env`, whose `KeyError`
propagates before any connection is made), then
connect / submit / disconnect unconditionally, and finally raise for a
non-zero `pbs.error()` code or return the job id.  The result is paired
with the ordered list of pbs calls performed. -/
def BatchJob.submit (j : BatchJob) (environ : EnvMap) (fqdn : String) (mgr : PbsManager) :
    Except PyError String × List PbsEvent :=
  match j.generate_env environ fqdn with
  | .error e => (.error e, [])
  | .ok envStr =>
    let _attropl := buildAttropl envStr j
    let events := [PbsEvent.connect, PbsEvent.submitCall, PbsEvent.disconnect]
    if mgr.err_code ≠ 0 then
      (.error (.submissionError mgr.err_code mgr.err_msg), events)
    else
      (.ok mgr.job_id, events)

/-- The tail of the per-job loop body in both `main` functions
(`batch_registration.py` lines 457-459, `multi_registration.py` lines
533-535): `id = batch_job.submit()`, report, `os.remove(tmp_filename)`.
There is no try/finally, so an exception from `submit` propagates before
`os.remove` runs; the Boolean records whether `os.remove` was executed. -/
def mainJobStep (j : BatchJob) (environ : EnvMap) (fqdn : String) (mgr : PbsManager) :
    Except PyError String × Bool :=
  match (j.submit environ fqdn mgr).1 with
  | .ok jobId => (.ok jobId, true)
  | .error e => (.error e, false)

/-- A fresh descriptor used in the environment-block counterexample. -/
def c6Job : BatchJob :=
  BatchJob.init "/data" "job.sh" none none none none none none none none none none

/-- C6 counterexample: with `LOGNAME` absent from the ambient environment
(`PATH` and `HOME` present), `generate_env` raises `KeyError('LOGNAME')`
instead of omitting the variable — an absent variable is not silently
skipped, so the claim is false on this environment. -/
theorem generate_env_absent_raises_cex :
    envLookup [("PATH", "/usr/bin"), ("HOME", "/home/u")] "LOGNAME" = none
    ∧ c6Job.generate_env [("PATH", "/usr/bin"), ("HOME", "/home/u")] "node1.cluster"
        = .error (.keyError "LOGNAME") :=
  ⟨rfl, rfl⟩

/-- C6 (amended): when `PATH`, `HOME` and `LOGNAME` are all present, the
environment block includes `PBS_O_PATH`, `PBS_O_HOME` and `PBS_O_LOGNAME`
exactly for those whose value is non-empty — a present-but-empty variable
is omitted without error — while an environment lacking `PATH` makes
`generate_env` raise `KeyError('PATH')` (and likewise for the other two
keys, per the counterexample). -/
theorem generate_env_omits_empty (j : BatchJob) (environ : EnvMap) (fqdn : String)
    (p h l : String)
    (hp : envLookup environ "PATH" = some p)
    (hh : envLookup environ "HOME" = some h)
    (hl : envLookup environ "LOGNAME" = some l) :
    j.generate_env environ fqdn
      = .ok ("PBS_O_WORKDIR=" ++ j._workdir ++ ",PBS_O_HOST=" ++ fqdn
          ++ (if p ≠ "" then ",PBS_O_PATH=" ++ p else "")
          ++ (if h ≠ "" then ",PBS_O_HOME=" ++ h else "")
          ++ (if l ≠ "" then ",PBS_O_LOGNAME=" ++ l else ""))
    ∧ ∀ environ2 : EnvMap, envLookup environ2 "PATH" = none →
        j.generate_env environ2 fqdn = .error (.keyError "PATH") := by
  constructor
  · simp only [BatchJob.generate_env, hp, hh, hl]
    split_ifs <;> simp_all [String.append_assoc, String.append_empty]
  · intro environ2 he2
    simp [BatchJob.generate_env, he2]

/-- Witness for the C6 theorem: a concrete environment where `PATH` is
present but empty, `HOME` and `LOGNAME` non-empty, and a concrete
environment lacking `PATH`. -/
theorem generate_env_omits_empty_witness :
    c6Job.generate_env [("PATH", ""), ("HOME", "/home/u"), ("LOGNAME", "u")] "node1"
      = .ok ("PBS_O_WORKDIR=" ++ c6Job._workdir ++ ",PBS_O_HOST=" ++ "node1"
          ++ (if "" ≠ "" then ",PBS_O_PATH=" ++ "" else "")
          ++ (if "/home/u" ≠ "" then ",PBS_O_HOME=" ++ "/home/u" else "")
          ++ (if "u" ≠ "" then ",PBS_O_LOGNAME=" ++ "u" else ""))
    ∧ c6Job.generate_env [("HOME", "/home/u")] "node1" = .error (.keyError "PATH") :=
  ⟨(generate_env_omits_empty c6Job [("PATH", ""), ("HOME", "/home/u"), ("LOGNAME", "u")]
      "node1" "" "/home/u" "u" rfl rfl rfl).1,
   (generate_env_omits_empty c6Job [("PATH", ""), ("HOME", "/home/u"), ("LOGNAME", "u")]
      "node1" "" "/home/u" "u" rfl rfl rfl).2 [("HOME", "/home/u")] rfl⟩

/-- C5: whenever `generate_env` succeeds, `submit` translates a non-zero
error code from the resource manager into the submission-failure exception
carrying that code and message, returns the opaque job id when the code is
zero, and in both cases disconnects the connection exactly once (the
disconnect happens before the error check). -/
theorem submit_translates_error_and_disconnects_once (j : BatchJob) (environ : EnvMap)
    (fqdn : String) (mgr : PbsManager)
    (henv : exceptOk (j.generate_env environ fqdn) = true) :
    (mgr.err_code ≠ 0 →
       (j.submit environ fqdn mgr).1 = .error (.submissionError mgr.err_code mgr.err_msg))
    ∧ (mgr.err_code = 0 → (j.submit environ fqdn mgr).1 = .ok mgr.job_id)
    ∧ (j.submit environ fqdn mgr).2.count PbsEvent.disconnect = 1 := by
  cases he : j.generate_env environ fqdn with
  | error e => simp [exceptOk, he] at henv
  | ok envStr =>
    refine ⟨fun hc => ?_, fun hc => ?_, ?_⟩
    · simp [BatchJob.submit, he, hc]
    · simp [BatchJob.submit, he, hc]
    · by_cases hc : mgr.err_code = 0 <;>
        simp [BatchJob.submit, he, hc, List.count_cons, List.count_nil] <;> decide

/-- A manager response with a non-zero error code. -/
def c5Manager : PbsManager := ⟨"", 15044, "Resource temporarily unavailable"⟩

/-- A full ambient environment for the submit witness. -/
def c5Env : EnvMap := [("PATH", "/usr/bin"), ("HOME", "/home/u"), ("LOGNAME", "u")]

/-- A fresh descriptor for the submit witness. -/
def c5Job : BatchJob :=
  BatchJob.init "/data" "job.sh" none none none none none none none none none none

/-- Witness for the C5 theorem: a concrete failing submit call returns the
translated error and the trace contains exactly one disconnect. -/
theorem submit_translates_error_witness :
    (c5Job.submit c5Env "node1" c5Manager).1
        = .error (.submissionError 15044 "Resource temporarily unavailable")
    ∧ (c5Job.submit c5Env "node1" c5Manager).2.count PbsEvent.disconnect = 1 :=
  ⟨(submit_translates_error_and_disconnects_once c5Job c5Env "node1" c5Manager
      (by decide)).1 (by decide),
   (submit_translates_error_and_disconnects_once c5Job c5Env "node1" c5Manager
      (by decide)).2.2⟩

/-- A manager response rejecting the submission, for the cleanup claim. -/
def c4Manager : PbsManager := ⟨"", 15046, "Execution server rejected request"⟩

/-- A full ambient environment for the cleanup claim. -/
def c4Env : EnvMap := [("PATH", "/usr/bin"), ("HOME", "/home/u"), ("LOGNAME", "u")]

/-- The descriptor the single-stack orchestrator builds for one job. -/
def c4Job : BatchJob :=
  BatchJob.init "/data" "tmp_abc.sh" (some "align_a.tif") (some "4:00:00") (some "1:ppn=8")
    none none none (some "ae") none (some "14gb") (some "25gb")

/-- C4 counterexample: when the resource manager rejects the submission,
the loop tail ends with the propagating exception and `os.remove` is never
executed — the temporary script file is not deleted on the error path, so
the claim of unconditional deletion is false on this input. -/
theorem temp_file_kept_on_failure_cex :
    (mainJobStep c4Job c4Env "node1" c4Manager).1
        = .error (.submissionError 15046 "Execution server rejected request")
    ∧ (mainJobStep c4Job c4Env "node1" c4Manager).2 = false :=
  ⟨rfl, rfl⟩

/-- C4 (amended): the temporary rendered script is deleted only after a
successful submission; when `submit` raises (non-zero manager error code),
the exception propagates past the `os.remove` call — there is no
try/finally — and the temporary file is left behind. -/
theorem temp_file_removed_iff_success (j : BatchJob) (environ : EnvMap) (fqdn : String)
    (mgr : PbsManager) (henv : exceptOk (j.generate_env environ fqdn) = true) :
    (mgr.err_code = 0 → mainJobStep j environ fqdn mgr = (.ok mgr.job_id, true))
    ∧ (mgr.err_code ≠ 0 →
        mainJobStep j environ fqdn mgr
          = (.error (.submissionError mgr.err_code mgr.err_msg), false)) := by
  cases he : j.generate_env environ fqdn with
  | error e => simp [exceptOk, he] at henv
  | ok envStr =>
    constructor
    · intro hc
      simp [mainJobStep, BatchJob.submit, he, hc]
    · intro hc
      simp [mainJobStep, BatchJob.submit, he, hc]

/-- Witness for the amended C4 theorem: on a successful submission the
temporary file is removed. -/
theorem temp_file_removed_iff_success_witness :
    mainJobStep c4Job c4Env "node1" ⟨"12345.master", 0, ""⟩ = (.ok "12345.master", true) :=
  (temp_file_removed_iff_success c4Job c4Env "node1" ⟨"12345.master", 0, ""⟩ (by decide)).1
    rfl

/-- The heap computation of both `main` functions (`batch_registration.py`
line 434, `multi_registration.py` line 479): `int(mem * 1024 * .93)`.
Truncating the positive double product is modelled by the exact rational
floor `mem * 1024 * 93 / 100`; at the claimed input 14 the double product
is approximately 13332.48, far from an integer boundary, so the model and
the floating-point computation agree there. -/
def mainHeap (mem : Nat) : Nat := mem * 1024 * 93 / 100

/-- C7 counterexample: a 14 GB memory request yields heap
`floor(14 * 1024 * 0.93) = floor(13332.48) = 13332`, not 13333 — the value
asserted by the claim contradicts the floor expression it itself states. -/
theorem heap_value_cex : mainHeap 14 = 13332 ∧ mainHeap 14 ≠ 13333 := by decide

/-- C7 (amended): a 14 GB memory request yields a computed heap equal to
`floor(14 * 1024 * 0.93)`, which is 13332. -/
theorem heap_value : mainHeap 14 = 14 * 1024 * 93 / 100 ∧ mainHeap 14 = 13332 := by decide

/-- The per-identifier channel dict built by the pairing loop of
`multi_registration.py` `main`: which `B` and `G` files are recorded. -/
structure PairSet where
  b : Option String
  g : Option String
deriving DecidableEq

/-- Number of channels recorded (`len(pairs[id])`). -/
def PairSet.size (p : PairSet) : Nat :=
  (if p.b.isSome then 1 else 0) + (if p.g.isSome then 1 else 0)

/-- Run-aborting failures of the pairing loop: a failed `assert`, or the
`IndexError` of `parts[1]` on a name without an underscore. -/
inductive RunError
  | assertionError
  | indexError
deriving DecidableEq

/-- Ordered-dict lookup for the `pairs` mapping. -/
def lookupPair (ps : List (String × PairSet)) (id : String) : Option PairSet :=
  (ps.find? (fun q => q.1 == id)).map (fun q => q.2)

/-- Update the entry of `id` in the `pairs` mapping. -/
def updatePair (ps : List (String × PairSet)) (id : String) (f : PairSet → PairSet) :
    List (String × PairSet) :=
  ps.map (fun q => if q.1 == id then (q.1, f q.2) else q)

/-- One iteration of the scanning loop (`multi_registration.py` lines
489-509): non-tiff entries are skipped; the extension-stripped name is
split on `_`, `parts[0]` is the identifier and `parts[1]` the channel;
`assert channel in ['B','G']`; a fresh dict is inserted for an unseen
identifier; `assert len(pairs[id]) < 2`; the file is recorded under its
channel.  The `pairs` dict is modelled in insertion order. -/
def scanStep (acc : List (String × PairSet)) (file : String) :
    Except RunError (List (String × PairSet)) :=
  let fe := splitext file
  if pyUpper fe.2 = ".TIFF" ∨ pyUpper fe.2 = ".TIF" then
    let parts := pySplit fe.1 '_'
    let id := parts.headD ""
    match parts.get? 1 with
    | none => .error .indexError
    | some channel =>
      if channel = "B" ∨ channel = "G" then
        let acc2 := if (lookupPair acc id).isSome then acc else acc ++ [(id, ⟨none, none⟩)]
        let cur := (lookupPair acc2 id).getD ⟨none, none⟩
        if cur.size < 2 then
          .ok (if channel = "B"
            then updatePair acc2 id (fun q => ⟨some file, q.g⟩)
            else updatePair acc2 id (fun q => ⟨q.b, some file⟩))
        else .error .assertionError
      else .error .assertionError
  else .ok acc

/-- The full scanning loop over the directory listing. -/
def scanPairs (files : List String) : Except RunError (List (String × PairSet)) :=
  files.foldlM scanStep []

/-- Observable outcome of the dispatch loop for one identifier. -/
inductive JobEvent
  | skip (file : String)
  | submitPair (id b g : String)
deriving DecidableEq

/-- The dispatch loop (`multi_registration.py` lines 512-535): a group with
a single recorded channel is reported unmatched and skipped; otherwise one
job for the `B`,`G` pair is created and submitted (the submission itself is
represented by the emitted event). -/
def dispatchPairs (pairs : List (String × PairSet)) : List JobEvent :=
  pairs.map (fun q =>
    if q.2.size = 1 then
      .skip (if q.2.b.isSome then q.2.b.getD "" else q.2.g.getD "")
    else
      .submitPair q.1 (q.2.b.getD "") (q.2.g.getD ""))

/-- C9: scanning `K1_B.tif`, `K1_G.tif`, `K2_B.tif` raises no run-level
error and groups the first two files into one matched pair under
identifier `K1`, leaving `K2` with a single channel; dispatch then submits
exactly one job — for the `K1` pair — and reports the lone `K2_B.tif` as
an unmatched skip with zero submissions for `K2`. -/
theorem pairing_groups_and_skips :
    scanPairs ["K1_B.tif", "K1_G.tif", "K2_B.tif"]
      = .ok [("K1", ⟨some "K1_B.tif", some "K1_G.tif"⟩), ("K2", ⟨some "K2_B.tif", none⟩)]
    ∧ dispatchPairs [("K1", ⟨some "K1_B.tif", some "K1_G.tif"⟩),
        ("K2", ⟨some "K2_B.tif", none⟩)]
      = [.submitPair "K1" "K1_B.tif" "K1_G.tif", .skip "K2_B.tif"] :=
  ⟨rfl, rfl⟩
